import Mathlib

/-
Verification development for the SolarSystem3d repository.

Shallow embedding of the parts of the code the claims are about:
* `TextureSystemM`  — `TextureSystem.loadTexture` / `chooseQualityBasedOnDistance`
  (src/unnamed/part_011, src/unnamed/part_010, src/src/config/settings.js);
* `LODM`            — `CelestialObject.updateLODTextures`
  (src/src/components/celestial/CelestialObject.js, lines 404-431);
* `AnimM`           — `AnimationSystem.run` / `animate` / `update`
  (src/src/components/systems/AnimationSystem.js);
* `FactoryM`        — `CelestialObjectFactory.createAll` / `createBodyWithHierarchy`
  (src/unnamed/part_017, lines 36-99);
* `CelestialM`      — `CelestialObject.update` (CelestialObject.js, lines 438-463);
* `SceneM`          — the orbit-group hierarchy built by
  `SceneSystem.setupCelestialBodies` (src/unnamed/part_005, lines 114-156).

JS numbers are modelled as `ℚ` where the code only adds, compares and takes
absolute values, and as `ℝ` where the code calls `Math.cos` / `Math.sin`.
-/

namespace SolarSystem

-- ===========================================================================
-- TextureSystemM : the texture cache and loader
-- ===========================================================================

namespace TextureSystemM

/-- Result of a `loadTexture` call: either the cached texture handle, or a
freshly created promise (identified by the id the model hands out). -/
inductive LoadResult where
  | cachedTex (textureId : Nat)
  | pending (promiseId : Nat)
deriving DecidableEq, Repr

/-- State of `TextureSystem`: the texture cache keyed by full path, the
`loadingPromises` map keyed by full path, a log of the full paths for which
`textureLoader.load` was actually invoked (one entry per underlying fetch),
and a counter used to mint fresh texture/promise identities. -/
structure TexState where
  basePath : String
  cache : List (String × Nat)
  loadingPromises : List (String × Nat)
  fetchLog : List String
  nextId : Nat
deriving DecidableEq, Repr

/-- `fullPath` as computed on the first line of `loadTexture`:
`basePath + relativePath + "_" + quality + ".jpg"`. -/
def fullPathOf (basePath relativePath quality : String) : String :=
  basePath ++ relativePath ++ "_" ++ quality ++ ".jpg"

/-- `TextureSystem.loadTexture(relativePath, quality)`, as a state transition.
If the full path is in the cache the cached texture is returned and nothing
else happens.  Otherwise the code always invokes `this.textureLoader.load`
(recorded in `fetchLog`), creates a new promise and registers it in
`loadingPromises`; the pending-promise map is never consulted before fetching. -/
def loadTexture (st : TexState) (relativePath quality : String) :
    TexState × LoadResult :=
  let fp := fullPathOf st.basePath relativePath quality
  match (st.cache.lookup fp : Option Nat) with
  | some t => (st, LoadResult.cachedTex t)
  | none =>
      let pid := st.nextId
      ({ st with
          loadingPromises := (fp, pid) :: st.loadingPromises,
          fetchLog := st.fetchLog ++ [fp],
          nextId := pid + 1 },
        LoadResult.pending pid)

/-- The success callback of the underlying fetch: stores the texture in the
cache and deletes the pending-promise entry. -/
def resolveLoad (st : TexState) (fp : String) : TexState :=
  let tid := st.nextId
  { st with
      cache := (fp, tid) :: st.cache,
      loadingPromises := st.loadingPromises.filter (fun e => e.1 ≠ fp),
      nextId := tid + 1 }

/-- A quality tier of `APP_SETTINGS.performance.textureQuality`
(src/src/config/settings.js, lines 38-45): tier name, distance threshold,
quality label. -/
structure QualityTier where
  tierName : String
  distance : ℚ
  quality : String
deriving DecidableEq, Repr

/-- `APP_SETTINGS.performance.textureQuality` from src/src/config/settings.js:
ultra/high/medium/low with distance thresholds 10/20/40/80 and quality labels
8k/4k/2k/1k. -/
def textureQuality : List QualityTier :=
  [⟨"ultra", 10, "8k"⟩, ⟨"high", 20, "4k"⟩, ⟨"medium", 40, "2k"⟩, ⟨"low", 80, "1k"⟩]

/-- `TextureSystem.chooseQualityBasedOnDistance(distance, resolutions)`
(src/unnamed/part_011, lines 349-373).  Starts from the last entry of
`resolutions`, sorts the tier table by ascending distance, takes the first
tier whose distance bound covers `distance` and whose quality the body has,
and finally falls back to the last entry if the chosen label is not in
`resolutions`. -/
def chooseQualityBasedOnDistance (distance : ℚ) (resolutions : List String) :
    String :=
  let fallback := (resolutions.getLast?).getD ""
  let qualitiesArray :=
    List.insertionSort (fun a b => a.distance ≤ b.distance) textureQuality
  let found := qualitiesArray.find?
    (fun t => decide (distance ≤ t.distance) && resolutions.contains t.quality)
  let chosen := match found with
    | some t => t.quality
    | none => fallback
  if resolutions.contains chosen then chosen else fallback

/-- Modelled from the spec: the nominal quality for a distance is the quality
label of the first tier (in ascending distance order) whose distance threshold
is at or above the requested distance. -/
def nominalQualitySpec (distance : ℚ) : Option String :=
  (((List.insertionSort (fun a b => a.distance ≤ b.distance) textureQuality)).find?
    (fun t => decide (distance ≤ t.distance))).map (fun t => t.quality)

end TextureSystemM

-- ===========================================================================
-- LODM : CelestialObject.updateLODTextures
-- ===========================================================================

namespace LODM

/-- LOD evaluation state of a `CelestialObject`: the texture keys of its
config, and `lastLODUpdateDistance` (`none` models the initial `Infinity`). -/
structure LODState where
  textureKeys : List String
  lastLODUpdateDistance : Option ℚ
deriving DecidableEq, Repr

/-- `Math.abs`, written out so that it evaluates by kernel reduction. -/
def ratAbs (x : ℚ) : ℚ :=
  if x < 0 then -x else x

/-- The test `Math.abs(distance - this.lastLODUpdateDistance) < threshold`;
against the initial `Infinity` the difference is infinite, so the test is
false. -/
def lodClose (last : Option ℚ) (distance threshold : ℚ) : Bool :=
  match last with
  | none => false
  | some l => decide (ratAbs (distance - l) < threshold)

/-- `CelestialObject.updateLODTextures` (CelestialObject.js lines 404-431),
with the already computed camera-to-body world distance as input.  Returns the
new state and the list of texture keys for which a `getLODTexture` request was
issued. -/
def updateLODTextures (st : LODState) (distance maxDistance threshold : ℚ) :
    LODState × List String :=
  if maxDistance < distance then
    ({ st with lastLODUpdateDistance := some distance }, [])
  else if lodClose st.lastLODUpdateDistance distance threshold then
    (st, [])
  else
    ({ st with lastLODUpdateDistance := some distance }, st.textureKeys)

end LODM

-- ===========================================================================
-- AnimM : AnimationSystem (run / animate / update)
-- ===========================================================================

namespace AnimM

/-- State of `AnimationSystem` relevant to `run()`: the `isRunning` flag, the
clock, and the number of `requestAnimationFrame` self-scheduling chains that
have been started (`animate()` starts one and keeps it alive by rescheduling
itself). -/
structure AnimState where
  isRunning : Bool
  clockStarted : Bool
  scheduledChains : Nat
deriving DecidableEq, Repr

/-- The state of a freshly constructed `AnimationSystem`. -/
def initAnimState : AnimState := ⟨false, false, 0⟩

/-- `AnimationSystem.run()` (AnimationSystem.js lines 79-88): if the loop is
already running the call only logs a warning and returns; otherwise it sets
`isRunning`, starts the clock and calls `animate()`, which starts one
scheduling chain. -/
def run (s : AnimState) : AnimState :=
  if s.isRunning then s
  else { s with isRunning := true, clockStarted := true,
                scheduledChains := s.scheduledChains + 1 }

/-- A registered updatable body as the animation loop sees it: its name and
the squared distance of its `group.position` from the camera position
(`distanceToSquared`). -/
structure Updatable where
  name : String
  dist2 : ℚ
deriving DecidableEq, Repr

/-- The comparator `(a, b) => distA - distB` used on line 113-119 of
AnimationSystem.js sorts by ascending squared distance. -/
def distLe (a b : Updatable) : Prop := a.dist2 ≤ b.dist2

instance : DecidableRel distLe := fun a b => inferInstanceAs (Decidable (a.dist2 ≤ b.dist2))

instance : IsTotal Updatable distLe := ⟨fun a b => le_total a.dist2 b.dist2⟩

instance : IsTrans Updatable distLe := ⟨fun _ _ _ h h' => le_trans h h'⟩

/-- Observable operations of one executed (throttled) frame. -/
inductive FrameEvent where
  | bodyUpdate (name : String)
  | cameraUpdate
  | lodUpdate (name : String)
  | renderScene
deriving DecidableEq, Repr

/-- `AnimationSystem.update(delta)` (lines 106-139): sorts the registered
updatables by squared distance from the camera, calls `update` on each in
that order, then the camera controller's update, increments `lodUpdateFrame`,
and every 5th executed frame calls `updateLODTextures` on every celestial
body.  Returns the new `lodUpdateFrame` counter and the event trace. -/
def updateTrace (lodUpdateFrame : Nat) (updatables celestialBodies : List Updatable) :
    Nat × List FrameEvent :=
  let sorted := List.insertionSort distLe updatables
  let bodyEvents := sorted.map (fun b => FrameEvent.bodyUpdate b.name)
  let n := lodUpdateFrame + 1
  let lodEvents :=
    if n % 5 = 0 then celestialBodies.map (fun b => FrameEvent.lodUpdate b.name)
    else []
  (n, bodyEvents ++ [FrameEvent.cameraUpdate] ++ lodEvents)

/-- One executed frame of `animate()` (lines 90-104) once the throttle test
passes: `this.update(delta)` followed by `this.render()`.  (The tween-group
update happens on every scheduler tick before the throttle test and is not an
operation of the executed frame.) -/
def executedFrame (lodUpdateFrame : Nat) (updatables celestialBodies : List Updatable) :
    Nat × List FrameEvent :=
  let r := updateTrace lodUpdateFrame updatables celestialBodies
  (r.1, r.2 ++ [FrameEvent.renderScene])

end AnimM

-- ===========================================================================
-- FactoryM : CelestialObjectFactory
-- ===========================================================================

namespace FactoryM

/-- A body's configuration, reduced to what `createBodyWithHierarchy` reads:
the entries of its `satellites` object, in order (each entry a name and that
satellite's own configuration; the remaining config fields are passed through
opaquely to the `CelestialObject` constructor). -/
inductive SatList where
  | nil
  | cons (name : String) (sats : SatList) (rest : SatList)
deriving DecidableEq, Repr

/-- The data of a constructed `CelestialObject` that the factory records:
its name and the parent name stored in `group.userData.parent`. -/
structure BodyM where
  bodyName : String
  parent : Option String
deriving DecidableEq, Repr

/-- State threaded through `createAll`: the `classCache`, the `bodies` result
object (a value is `some body`; the claim's hypothetical null entry would be
`none`), the log of constructor invocations and the log of names whose
construction succeeded. -/
structure FactoryState where
  classCache : List String
  bodies : List (String × Option BodyM)
  attempts : List String
  successes : List String
deriving DecidableEq, Repr

/-- The fresh state `createAll` starts from. -/
def initFactoryState : FactoryState := ⟨[], [], [], []⟩

/-- The state after a successful `new CelestialObject(...)` for `name`
(src/unnamed/part_017, lines 66-80): the body is stored in the `bodies`
result object and in the `classCache`. -/
def recordSuccess (name : String) (parentName : Option String)
    (st : FactoryState) : FactoryState :=
  { st with
    bodies := st.bodies ++ [(name, some ⟨name, parentName⟩)],
    classCache := name :: st.classCache,
    attempts := st.attempts ++ [name],
    successes := st.successes ++ [name] }

/-- The state after `new CelestialObject(...)` threw for `name` (lines
81-87): the error is caught and logged, and the function returns null
without touching `bodies` or the cache. -/
def recordFailure (name : String) (st : FactoryState) : FactoryState :=
  { st with attempts := st.attempts ++ [name] }

/-- The recursive satellite creation of lines 90-96, each entry processed by
the body of `createBodyWithHierarchy` (lines 57-99) inlined: cache hit does
nothing; a constructor throw is caught; a success records the body (with
this parent's name) and recurses into its own satellites.  `f` abstracts
whether `new CelestialObject(...)` throws for a given name. -/
def createSatellites (f : String → Bool) (parentName : String)
    (sats : SatList) (st : FactoryState) : FactoryState :=
  match sats with
  | .nil => st
  | .cons n csats rest =>
      createSatellites f parentName rest
        (if n ∈ st.classCache then st
         else if f n then recordFailure n st
         else createSatellites f n csats (recordSuccess n (some parentName) st))

/-- `CelestialObjectFactory.createBodyWithHierarchy(name, config, parentName,
bodies)` (src/unnamed/part_017, lines 57-99). -/
def createBodyWithHierarchy (f : String → Bool) (name : String)
    (cfg : SatList) (parentName : Option String) (st : FactoryState) :
    FactoryState :=
  if name ∈ st.classCache then st
  else if f name then recordFailure name st
  else createSatellites f name cfg (recordSuccess name parentName st)

/-- The top-level loop of `createAll` (lines 42-49): every configured body is
processed in order, except that the entry named `stars` is skipped. -/
def createAllAux (f : String → Bool) (top : SatList)
    (st : FactoryState) : FactoryState :=
  match top with
  | .nil => st
  | .cons n c rest =>
      createAllAux f rest
        (if n = "stars" then st
         else createBodyWithHierarchy f n c none st)

/-- `CelestialObjectFactory.createAll()` (lines 36-54). -/
def createAll (f : String → Bool) (top : SatList) : FactoryState :=
  createAllAux f top initFactoryState

/-- All names occurring in a satellite list, nested ones included. -/
def satAllNames : SatList → List String
  | .nil => []
  | .cons n c rest => n :: (satAllNames c ++ satAllNames rest)

/-- The direct (name, config) pairs of a satellite or top-level list. -/
def topPairs : SatList → List (String × SatList)
  | .nil => []
  | .cons n c rest => (n, c) :: topPairs rest

/-- The direct names of a satellite or top-level list. -/
def topNames : SatList → List String
  | .nil => []
  | .cons n _ rest => n :: topNames rest

/-- Names whose configuration appears strictly below a top-level entry. -/
def topSatNames : SatList → List String
  | .nil => []
  | .cons _ c rest => satAllNames c ++ topSatNames rest

/-- The invariant the factory state maintains: successfully constructed
names are distinct, coincide with the cache and with the keys of the
`bodies` object, never name a throwing constructor, and every `bodies`
value is an actual body (never null). -/
def GoodState (f : String → Bool) (st : FactoryState) : Prop :=
  st.successes.Nodup
  ∧ (∀ n, n ∈ st.successes ↔ n ∈ st.classCache)
  ∧ st.bodies.map Prod.fst = st.successes
  ∧ (∀ n, n ∈ st.successes → f n = false)
  ∧ (∀ e ∈ st.bodies, (Prod.snd e).isSome)

/-- A small concrete configuration: the starfield entry, earth with
satellite moon, and mars. -/
def topEx : SatList :=
  .cons "stars" .nil
    (.cons "earth" (.cons "moon" .nil .nil)
      (.cons "mars" .nil .nil))

/-- A constructor oracle under which only the construction of mars throws. -/
def failEx : String → Bool := fun n => n == "mars"

end FactoryM

-- ===========================================================================
-- CelestialM : CelestialObject.update, over idealized reals
-- ===========================================================================

/-- A Three.js `Vector3`, modelled over idealized reals. -/
abbrev Vec3 := ℝ × ℝ × ℝ

namespace CelestialM

/-- `CLOUDS_ROTATION_FACTOR` (CelestialObject.js line 34). -/
def CLOUDS_ROTATION_FACTOR : ℝ := 0.1

/-- The mutable state of a `CelestialObject` that `update(delta,
sunWorldPosition)` reads and writes: the constructor-set parameters
`rotationSpeed`, `orbitRadius`, `orbitSpeed`; the group's y-rotation; the
clouds mesh's local y-rotation (`none` when there is no clouds layer); the
night-lights shader's `sunPosition` uniform (`none` when there is no lights
layer); the orbit angle; and the group's local position. -/
structure BodyState where
  rotationSpeed : ℝ
  orbitRadius : ℝ
  orbitSpeed : ℝ
  groupRotY : ℝ
  cloudsRotY : Option ℝ
  lightsUniform : Option Vec3
  orbitAngle : ℝ
  position : Vec3

/-- The orbital position `(cos(angle)*radius, 0, sin(angle)*radius)` set on
lines 457-461 of CelestialObject.js. -/
noncomputable def orbitPosition (radius angle : ℝ) : Vec3 :=
  (Real.cos angle * radius, 0, Real.sin angle * radius)

open Classical in
/-- `CelestialObject.update(delta, sunWorldPosition)` (CelestialObject.js
lines 438-463): advances the group's y-rotation by `rotationSpeed * delta`;
advances the clouds layer's local y-rotation by `rotationSpeed * delta *
CLOUDS_ROTATION_FACTOR` when a clouds layer exists; copies
`sunWorldPosition` into the night-lights `sunPosition` uniform when a lights
layer exists and the argument is supplied; and, when `orbitRadius > 0` and
`orbitSpeed > 0`, advances the orbit angle by `orbitSpeed * delta` and sets
the group position on the orbit circle. -/
noncomputable def update (b : BodyState) (delta : ℝ)
    (sunWorldPosition : Option Vec3) : BodyState :=
  let b1 := { b with groupRotY := b.groupRotY + b.rotationSpeed * delta }
  let cloudsAdvance := b.rotationSpeed * delta * CLOUDS_ROTATION_FACTOR
  let b2 := match b1.cloudsRotY with
    | some c => { b1 with cloudsRotY := some (c + cloudsAdvance) }
    | none => b1
  let b3 := match b2.lightsUniform, sunWorldPosition with
    | some _, some sp => { b2 with lightsUniform := some sp }
    | _, _ => b2
  if 0 < b.orbitRadius ∧ 0 < b.orbitSpeed then
    let angle := b3.orbitAngle + b.orbitSpeed * delta
    { b3 with orbitAngle := angle,
              position := orbitPosition b.orbitRadius angle }
  else b3

/-- A sequence of `update(delta_i)` calls, in order, with no sun position
supplied. -/
noncomputable def applyUpdates (b : BodyState) (ds : List ℝ) : BodyState :=
  ds.foldl (fun s d => update s d none) b

/-- The per-body call the animation loop makes on line 123 of
AnimationSystem.js: `obj.update(delta, this._cameraPos)` — the second
argument is the camera position copied on line 112, not the sun's world
position. -/
noncomputable def animBodyCall (delta : ℝ) (cameraPos : Vec3) (b : BodyState) :
    BodyState :=
  update b delta (some cameraPos)

/-- The world-frame y-rotation of the clouds mesh: the clouds mesh is a child
of the body's group (`_addLayer`, CelestialObject.js lines 223-226), so its
world rotation about y is the group's rotation plus its own local rotation. -/
def cloudsWorldRotY (b : BodyState) : ℝ :=
  b.groupRotY + b.cloudsRotY.getD 0

/-- An earth-like body state: has clouds and lights layers, spins, orbits. -/
noncomputable def earthLike : BodyState :=
  { rotationSpeed := 1 / 1250, orbitRadius := 35, orbitSpeed := 1 / 100,
    groupRotY := 0, cloudsRotY := some 0, lightsUniform := some (0, 0, 0),
    orbitAngle := 0, position := (35, 0, 0) }

/-- The camera position the loop passes (initial camera position from
CAMERA_SETTINGS) and the sun's world position (the sun sits at the origin). -/
def cameraPosEx : Vec3 := (0, 50, 0)

/-- The sun's world position in the example frame. -/
def sunPosEx : Vec3 := (0, 0, 0)

end CelestialM

-- ===========================================================================
-- SceneM : the orbit-group hierarchy of SceneSystem.setupCelestialBodies
-- ===========================================================================

namespace SceneM

/-- Rotation about the y axis, as Three.js applies `rotation.y` to child
coordinates. -/
noncomputable def rotY (angle : ℝ) (v : Vec3) : Vec3 :=
  (Real.cos angle * v.1 + Real.sin angle * v.2.2,
   v.2.1,
   -Real.sin angle * v.1 + Real.cos angle * v.2.2)

/-- The local transform of one node of the scene graph: its position and its
y-rotation (the only rotation the code writes). -/
structure NodeTf where
  position : Vec3
  rotYAngle : ℝ

/-- Application of a node's local transform to child coordinates. -/
noncomputable def applyTf (t : NodeTf) (v : Vec3) : Vec3 :=
  t.position + rotY t.rotYAngle v

/-- Application of a chain of ancestor transforms, outermost (scene root)
first: this is how `getWorldPosition` compounds local coordinates up the
Three.js parent chain. -/
noncomputable def applyChain (chain : List NodeTf) (v : Vec3) : Vec3 :=
  chain.foldr applyTf v

/-- The world position of a node whose ancestors form `chain`. -/
noncomputable def worldPos (chain : List NodeTf) (n : NodeTf) : Vec3 :=
  applyChain chain n.position

/-- The transform of an orbit group as `setupCelestialBodies` creates it
(src/unnamed/part_005, lines 128-131): a fresh `THREE.Group` with identity
transform.  A satellite's orbit group is added as a child of the parent's
body group, so a satellite body group's ancestor chain is the parent body
group's chain, then the parent body group, then this identity orbit group. -/
def orbitGroupTf : NodeTf := ⟨(0, 0, 0), 0⟩

end SceneM

-- ===========================================================================
-- Theorems
-- ===========================================================================

/-- C1: evaluation of the code at the failing input.  Two
`loadTexture("mars/marsSurface", "4k")` calls, the second issued before the
first load resolves, invoke the underlying `textureLoader.load` twice (two
entries in the fetch log) and hand the two callers two distinct pending
promises: `loadTexture` consults only `cache`, never `loadingPromises`, so
no coalescing of concurrent loads of the same path happens. -/
theorem c1_loadTexture_double_fetch :
    (((TextureSystemM.loadTexture
        (TextureSystemM.loadTexture
          ⟨"/assets/textures/", [], [], [], 0⟩ "mars/marsSurface" "4k").1
        "mars/marsSurface" "4k").1.fetchLog.length = 2)
    ∧ (TextureSystemM.loadTexture
        ⟨"/assets/textures/", [], [], [], 0⟩ "mars/marsSurface" "4k").2
      ≠ (TextureSystemM.loadTexture
        (TextureSystemM.loadTexture
          ⟨"/assets/textures/", [], [], [], 0⟩ "mars/marsSurface" "4k").1
        "mars/marsSurface" "4k").2) := by
  decide

/-- C6 counterexample: both defects of the claim at concrete inputs.
First, a call beyond `maxDistance` does change the LOD evaluation state
(`lastLODUpdateDistance` is set to the new distance in the far branch) even
though it issues no request.  Second, two consecutive calls at distances 4
and 8 (differing by less than the threshold 5) can end with the second call
issuing requests: the first call is swallowed by hysteresis against the
recorded distance 0 and does not record 4, so the second call compares 8
against 0 and proceeds. -/
theorem c6_counterexample :
    ((LODM.updateLODTextures ⟨["surface"], some 10⟩ 300 200 5).1
        ≠ (⟨["surface"], some 10⟩ : LODM.LODState)
      ∧ (LODM.updateLODTextures ⟨["surface"], some 10⟩ 300 200 5).2 = [])
    ∧ (LODM.ratAbs ((8 : ℚ) - 4) < 5
      ∧ (LODM.updateLODTextures ⟨["surface"], some 0⟩ 4 200 5).2 = []
      ∧ (LODM.updateLODTextures
          (LODM.updateLODTextures ⟨["surface"], some 0⟩ 4 200 5).1
          8 200 5).2 = ["surface"]) := by
  refine ⟨⟨?_, ?_⟩, ?_, ?_, ?_⟩ <;>
    norm_num [LODM.updateLODTextures, LODM.lodClose, LODM.ratAbs]

/-- C6 (amended): `updateLODTextures` issues no texture request when the
distance exceeds `maxDistance`, but records that distance as the last
evaluated distance; it issues no request (and leaves the state unchanged)
when the distance differs from the last recorded distance by less than the
threshold; and of two consecutive calls at distances differing by less than
the threshold, the second issues no request provided the first call recorded
its distance (because it was beyond `maxDistance` or it re-requested). -/
theorem c6_updateLOD_amended (st : LODM.LODState) (d1 d2 maxD τ : ℚ) :
    (maxD < d1 →
      LODM.updateLODTextures st d1 maxD τ
        = (⟨st.textureKeys, some d1⟩, []))
    ∧ (¬ maxD < d1 → LODM.lodClose st.lastLODUpdateDistance d1 τ = true →
      LODM.updateLODTextures st d1 maxD τ = (st, []))
    ∧ ((maxD < d1 ∨ LODM.lodClose st.lastLODUpdateDistance d1 τ = false) →
      LODM.ratAbs (d2 - d1) < τ →
      (LODM.updateLODTextures
        (LODM.updateLODTextures st d1 maxD τ).1 d2 maxD τ).2 = []) := by
  refine ⟨fun h => ?_, fun h hc => ?_, fun hrec hclose => ?_⟩
  · simp [LODM.updateLODTextures, h]
  · simp [LODM.updateLODTextures, h, hc]
  · have hfst : (LODM.updateLODTextures st d1 maxD τ).1.lastLODUpdateDistance
        = some d1 := by
      rcases hrec with h | h
      · simp [LODM.updateLODTextures, h]
      · by_cases hm : maxD < d1
        · simp [LODM.updateLODTextures, hm]
        · simp [LODM.updateLODTextures, hm, h]
    generalize hst1 : (LODM.updateLODTextures st d1 maxD τ).1 = st1 at hfst
    by_cases hm2 : maxD < d2
    · simp [LODM.updateLODTextures, hm2]
    · have hc2 : LODM.lodClose st1.lastLODUpdateDistance d2 τ = true := by
        simp [LODM.lodClose, hfst, hclose]
      simp [LODM.updateLODTextures, hm2, hc2]

/-- C6 witness: the amended theorem at concrete inputs — a far call at
distance 300 records 300 and issues nothing, and after a recording call at
distance 50, a call at distance 52 issues nothing. -/
theorem c6_witness :
    (LODM.updateLODTextures ⟨["surface"], some 10⟩ 300 200 5
        = (⟨["surface"], some 300⟩, []))
    ∧ ((LODM.updateLODTextures
        (LODM.updateLODTextures ⟨["surface"], none⟩ 50 200 5).1
        52 200 5).2 = []) := by
  constructor
  · exact (c6_updateLOD_amended ⟨["surface"], some 10⟩ 300 52 200 5).1
      (by norm_num)
  · exact (c6_updateLOD_amended ⟨["surface"], none⟩ 50 52 200 5).2.2
      (Or.inr (by simp [LODM.lodClose])) (by norm_num [LODM.ratAbs])

/-- The quality-tier table is already in ascending distance order, so the
sort inside `chooseQualityBasedOnDistance` leaves it unchanged. -/
theorem sortedTiers_eq :
    List.insertionSort
        (fun (a b : TextureSystemM.QualityTier) => a.distance ≤ b.distance)
        TextureSystemM.textureQuality
      = TextureSystemM.textureQuality := by
  decide

/-- The JS fallback `resolutions[resolutions.length - 1]` is a member of a
nonempty resolution list. -/
theorem fallback_mem (res : List String) (h : res ≠ []) :
    (res.getLast?).getD "" ∈ res := by
  rw [List.getLast?_eq_getLast res h]
  exact List.getLast_mem h

/-- `chooseQualityBasedOnDistance` always returns a member of a nonempty
resolution list. -/
theorem choose_mem (d : ℚ) (res : List String) (h : res ≠ []) :
    TextureSystemM.chooseQualityBasedOnDistance d res ∈ res := by
  unfold TextureSystemM.chooseQualityBasedOnDistance
  simp only [sortedTiers_eq]
  split
  case isTrue hc => exact List.mem_of_elem_eq_true hc
  case isFalse hc => exact fallback_mem res h

/-- When the nominal quality for the distance is itself available,
`chooseQualityBasedOnDistance` returns exactly it. -/
theorem choose_exact (d : ℚ) (res : List String) (q : String)
    (hq : TextureSystemM.nominalQualitySpec d = some q) (hmem : q ∈ res) :
    TextureSystemM.chooseQualityBasedOnDistance d res = q := by
  have hcq : res.contains q = true := List.elem_eq_true_of_mem hmem
  unfold TextureSystemM.chooseQualityBasedOnDistance
  unfold TextureSystemM.nominalQualitySpec at hq
  rw [sortedTiers_eq] at hq ⊢
  by_cases h10 : d ≤ 10
  · have : q = "8k" := by
      simp [TextureSystemM.textureQuality, List.find?, h10] at hq
      exact hq.symm
    subst this
    simp [TextureSystemM.textureQuality, List.find?, h10, hcq, hmem]
  · by_cases h20 : d ≤ 20
    · have : q = "4k" := by
        simp [TextureSystemM.textureQuality, List.find?, h10, h20] at hq
        exact hq.symm
      subst this
      simp [TextureSystemM.textureQuality, List.find?, h10, h20, hcq, hmem]
    · by_cases h40 : d ≤ 40
      · have : q = "2k" := by
          simp [TextureSystemM.textureQuality, List.find?, h10, h20, h40] at hq
          exact hq.symm
        subst this
        simp [TextureSystemM.textureQuality, List.find?, h10, h20, h40, hcq, hmem]
      · by_cases h80 : d ≤ 80
        · have : q = "1k" := by
            simp [TextureSystemM.textureQuality, List.find?, h10, h20, h40,
              h80] at hq
            exact hq.symm
          subst this
          simp [TextureSystemM.textureQuality, List.find?, h10, h20, h40, h80,
            hcq, hmem]
        · simp [TextureSystemM.textureQuality, List.find?, h10, h20, h40,
            h80] at hq

/-- C2: the LOD quality resolution picks a quality the body actually has:
always a member of a nonempty resolution list, exactly the nominal quality
when the body has it, and for a body with resolutions `["4k", "1k"]`
requested at distance 5 (whose nominal quality is `"8k"`) it resolves to
`"4k"` — it does not fail and does not pick `"1k"` while `"4k"` is
available. -/
theorem c2_chooseQuality_lod :
    (∀ (d : ℚ) (res : List String), res ≠ [] →
        TextureSystemM.chooseQualityBasedOnDistance d res ∈ res)
    ∧ (∀ (d : ℚ) (res : List String) (q : String),
        TextureSystemM.nominalQualitySpec d = some q → q ∈ res →
        TextureSystemM.chooseQualityBasedOnDistance d res = q)
    ∧ TextureSystemM.nominalQualitySpec 5 = some "8k"
    ∧ TextureSystemM.chooseQualityBasedOnDistance 5 ["4k", "1k"] = "4k"
    ∧ TextureSystemM.chooseQualityBasedOnDistance 5 ["4k", "1k"] ≠ "1k" :=
  ⟨choose_mem, choose_exact, by decide, by decide, by decide⟩

/-- C2 witness: the general parts of the theorem applied at distance 5 with
resolutions `["4k", "1k"]`. -/
theorem c2_witness :
    TextureSystemM.chooseQualityBasedOnDistance 5 ["4k", "1k"] ∈ ["4k", "1k"] :=
  c2_chooseQuality_lod.1 5 ["4k", "1k"] (by decide)

/-- C7: `run()` is idempotent: a second call while the animation loop is
running is a no-op, so the state after two `run()` calls equals the state
after one, and from the freshly constructed (stopped) state exactly one
scheduling chain exists after any number of `run()` calls. -/
theorem c7_run_idempotent :
    (∀ s : AnimM.AnimState, AnimM.run (AnimM.run s) = AnimM.run s)
    ∧ (AnimM.run AnimM.initAnimState).scheduledChains = 1
    ∧ AnimM.run (AnimM.run AnimM.initAnimState) = AnimM.run AnimM.initAnimState := by
  refine ⟨fun s => ?_, by decide, by decide⟩
  by_cases h : s.isRunning <;> simp [AnimM.run, h]

/-- C8: within one executed (throttled) frame, the trace of operations is
exactly: the registered bodies updated in ascending order of squared
distance from the camera (a sorted permutation of the updatables), then the
camera controller's update, then — exactly when this is the 5th, 10th, …
executed frame — an LOD texture update for every celestial body, and only
then the render; render is never interleaved before the updates. -/
theorem c8_frame_ordering (k : Nat)
    (updatables celestialBodies : List AnimM.Updatable) :
    ∃ sorted : List AnimM.Updatable,
      sorted.Perm updatables
      ∧ List.Sorted AnimM.distLe sorted
      ∧ (AnimM.executedFrame k updatables celestialBodies).2 =
          (sorted.map fun b => AnimM.FrameEvent.bodyUpdate b.name)
            ++ [AnimM.FrameEvent.cameraUpdate]
            ++ (if (k + 1) % 5 = 0
                then celestialBodies.map fun b => AnimM.FrameEvent.lodUpdate b.name
                else [])
            ++ [AnimM.FrameEvent.renderScene] := by
  refine ⟨List.insertionSort AnimM.distLe updatables,
    List.perm_insertionSort _ _, List.sorted_insertionSort _ _, ?_⟩
  simp [AnimM.executedFrame, AnimM.updateTrace]

-- ===========================================================================
-- CelestialM theorems (C3, C5, C10)
-- ===========================================================================

namespace CelestialM

/-- `update` advances the group's y-rotation by `rotationSpeed * delta`. -/
theorem update_groupRotY (b : BodyState) (δ : ℝ) (sp : Option Vec3) :
    (update b δ sp).groupRotY = b.groupRotY + b.rotationSpeed * δ := by
  unfold update
  cases hb : b.cloudsRotY <;> cases hl : b.lightsUniform <;> cases sp <;>
    split_ifs <;> simp [hb, hl]

/-- `update` advances an existing clouds layer's local y-rotation by
`rotationSpeed * delta * CLOUDS_ROTATION_FACTOR`. -/
theorem update_cloudsRotY (b : BodyState) (δ : ℝ) (sp : Option Vec3) (c : ℝ)
    (h : b.cloudsRotY = some c) :
    (update b δ sp).cloudsRotY
      = some (c + b.rotationSpeed * δ * CLOUDS_ROTATION_FACTOR) := by
  unfold update
  cases hl : b.lightsUniform <;> cases sp <;> split_ifs <;> simp [h, hl]

/-- The constructor parameters are never changed by `update`. -/
theorem update_const (b : BodyState) (δ : ℝ) (sp : Option Vec3) :
    (update b δ sp).rotationSpeed = b.rotationSpeed
    ∧ (update b δ sp).orbitRadius = b.orbitRadius
    ∧ (update b δ sp).orbitSpeed = b.orbitSpeed := by
  unfold update
  cases hb : b.cloudsRotY <;> cases hl : b.lightsUniform <;> cases sp <;>
    split_ifs <;> simp [hb, hl]

/-- When the body orbits, `update` advances the orbit angle by
`orbitSpeed * delta`. -/
theorem update_orbitAngle (b : BodyState) (δ : ℝ) (sp : Option Vec3)
    (hR : 0 < b.orbitRadius) (hs : 0 < b.orbitSpeed) :
    (update b δ sp).orbitAngle = b.orbitAngle + b.orbitSpeed * δ := by
  unfold update
  cases hb : b.cloudsRotY <;> cases hl : b.lightsUniform <;> cases sp <;>
    split_ifs with h <;> first
      | exact absurd ⟨hR, hs⟩ h
      | simp [hb, hl]

/-- When the body orbits, `update` puts the group on the orbit circle at the
new angle. -/
theorem update_position (b : BodyState) (δ : ℝ) (sp : Option Vec3)
    (hR : 0 < b.orbitRadius) (hs : 0 < b.orbitSpeed) :
    (update b δ sp).position
      = orbitPosition b.orbitRadius (b.orbitAngle + b.orbitSpeed * δ) := by
  unfold update
  cases hb : b.cloudsRotY <;> cases hl : b.lightsUniform <;> cases sp <;>
    split_ifs with h <;> first
      | exact absurd ⟨hR, hs⟩ h
      | simp [hb, hl]

/-- Folding `update` over a list of deltas accumulates the orbit angle
linearly: the final angle depends only on the sum of the deltas. -/
theorem applyUpdates_orbitAngle (ds : List ℝ) (b : BodyState)
    (hR : 0 < b.orbitRadius) (hs : 0 < b.orbitSpeed) :
    (applyUpdates b ds).orbitAngle = b.orbitAngle + b.orbitSpeed * ds.sum := by
  induction ds generalizing b with
  | nil => simp [applyUpdates]
  | cons d rest ih =>
    have hconst := update_const b d none
    have hstep := update_orbitAngle b d none hR hs
    have : applyUpdates b (d :: rest) = applyUpdates (update b d none) rest := rfl
    rw [this, ih (update b d none) (hconst.2.1 ▸ hR) (hconst.2.2 ▸ hs),
      hstep, hconst.2.2]
    ring_nf
    rw [List.sum_cons]
    ring

/-- After at least one `update`, the position sits on the orbit circle at the
accumulated angle. -/
theorem applyUpdates_position (ds : List ℝ) (b : BodyState) (hds : ds ≠ [])
    (hR : 0 < b.orbitRadius) (hs : 0 < b.orbitSpeed) :
    (applyUpdates b ds).position
      = orbitPosition b.orbitRadius (b.orbitAngle + b.orbitSpeed * ds.sum) := by
  induction ds generalizing b with
  | nil => cases hds rfl
  | cons d rest ih =>
    have hconst := update_const b d none
    have hstep : applyUpdates b (d :: rest) = applyUpdates (update b d none) rest := rfl
    cases rest with
    | nil =>
      rw [hstep]
      show (update b d none).position = _
      rw [update_position b d none hR hs]
      simp
    | cons d2 rest2 =>
      rw [hstep, ih (update b d none) (by simp) (hconst.2.1 ▸ hR) (hconst.2.2 ▸ hs),
        hconst.2.1, hconst.2.2, update_orbitAngle b d none hR hs]
      congr 1
      simp only [List.sum_cons]
      ring

/-- C3: for a body with positive orbit radius and orbit speed, after any
nonempty sequence of `update(delta_i)` calls, the local position equals
`(cos(angle0 + orbitSpeed * t) * R, 0, sin(angle0 + orbitSpeed * t) * R)`
where `t` is the sum of the deltas — a pure function of total elapsed time,
so many small steps give the same position as one large step. -/
theorem c3_orbit_pure_function (b : BodyState) (ds : List ℝ)
    (hR : 0 < b.orbitRadius) (hs : 0 < b.orbitSpeed) (hds : ds ≠ []) :
    (applyUpdates b ds).position
      = (Real.cos (b.orbitAngle + b.orbitSpeed * ds.sum) * b.orbitRadius, 0,
         Real.sin (b.orbitAngle + b.orbitSpeed * ds.sum) * b.orbitRadius)
    ∧ ∀ ds2 : List ℝ, ds2 ≠ [] → ds2.sum = ds.sum →
        (applyUpdates b ds2).position = (applyUpdates b ds).position := by
  constructor
  · rw [applyUpdates_position ds b hds hR hs]
    rfl
  · intro ds2 hds2 hsum
    rw [applyUpdates_position ds b hds hR hs,
      applyUpdates_position ds2 b hds2 hR hs, hsum]

/-- C3 witness: the earth-like body advanced by deltas `[1, 2]`. -/
theorem c3_witness :
    0 < earthLike.orbitRadius ∧ 0 < earthLike.orbitSpeed
    ∧ ([1, 2] : List ℝ) ≠ []
    ∧ (applyUpdates earthLike [1, 2]).position
        = (Real.cos (earthLike.orbitAngle
              + earthLike.orbitSpeed * ([1, 2] : List ℝ).sum)
            * earthLike.orbitRadius, 0,
           Real.sin (earthLike.orbitAngle
              + earthLike.orbitSpeed * ([1, 2] : List ℝ).sum)
            * earthLike.orbitRadius) :=
  ⟨by norm_num [earthLike], by norm_num [earthLike], by simp,
    (c3_orbit_pure_function earthLike [1, 2] (by norm_num [earthLike])
      (by norm_num [earthLike]) (by simp)).1⟩

/-- C5: what the animation loop actually feeds the day/night shader.  The
per-body call on line 123 of AnimationSystem.js is
`obj.update(delta, this._cameraPos)`, so a body with a night-lights layer
gets its `sunPosition` uniform set to the camera position of the frame —
at the failing input (camera at its initial position `(0, 50, 0)`, sun at
the origin) the uniform ends up equal to the camera position, which differs
from the sun's world position. -/
theorem c5_uniform_gets_camera_position :
    (∀ (δ : ℝ) (c : Vec3) (b : BodyState),
      (animBodyCall δ c b).lightsUniform
        = if b.lightsUniform.isSome then some c else b.lightsUniform)
    ∧ (animBodyCall 1 cameraPosEx earthLike).lightsUniform = some cameraPosEx
    ∧ cameraPosEx ≠ sunPosEx := by
  refine ⟨?_, ?_, ?_⟩
  · intro δ c b
    unfold animBodyCall update
    cases hb : b.cloudsRotY <;> cases hl : b.lightsUniform <;>
      split_ifs <;> simp_all
  · unfold animBodyCall update
    norm_num [earthLike]
  · intro h
    have := congrArg (fun v : Vec3 => v.2.1) h
    norm_num [cameraPosEx, sunPosEx] at this

/-- The surface rotates with the group; the clouds mesh is a child of the
group, so per `update` its world rotation advances by the group's advance
plus its own local advance. -/
theorem cloudsWorld_advance (b : BodyState) (δ : ℝ) (sp : Option Vec3)
    (c : ℝ) (h : b.cloudsRotY = some c) :
    cloudsWorldRotY (update b δ sp) - cloudsWorldRotY b
      = b.rotationSpeed * δ * (1 + CLOUDS_ROTATION_FACTOR) := by
  unfold cloudsWorldRotY
  rw [update_groupRotY, update_cloudsRotY b δ sp c h, h]
  simp
  ring

/-- C10: for a body with a clouds layer, one `update(delta)` advances the
clouds layer's world-frame rotation by `rotationSpeed * delta * 1.1` (the
group's advance plus the 10% local increment), so the clouds' angular drift
relative to the surface is exactly 10% of the body's own rotation advance. -/
theorem c10_clouds_rotation (b : BodyState) (δ : ℝ) (sp : Option Vec3)
    (c : ℝ) (h : b.cloudsRotY = some c) :
    cloudsWorldRotY (update b δ sp) - cloudsWorldRotY b
      = b.rotationSpeed * δ * 1.1
    ∧ (cloudsWorldRotY (update b δ sp) - cloudsWorldRotY b)
        - ((update b δ sp).groupRotY - b.groupRotY)
      = (b.rotationSpeed * δ) * 0.1 := by
  have hadv := cloudsWorld_advance b δ sp c h
  constructor
  · rw [hadv]
    norm_num [CLOUDS_ROTATION_FACTOR]
  · rw [hadv, update_groupRotY]
    norm_num [CLOUDS_ROTATION_FACTOR]
    ring

/-- C10 witness: the earth-like body (which has a clouds layer at local
rotation 0) advanced by delta 2. -/
theorem c10_witness :
    earthLike.cloudsRotY = some 0
    ∧ (cloudsWorldRotY (update earthLike 2 none) - cloudsWorldRotY earthLike
        = earthLike.rotationSpeed * 2 * 1.1
      ∧ (cloudsWorldRotY (update earthLike 2 none) - cloudsWorldRotY earthLike)
          - ((update earthLike 2 none).groupRotY - earthLike.groupRotY)
        = (earthLike.rotationSpeed * 2) * 0.1) :=
  ⟨rfl, c10_clouds_rotation earthLike 2 none 0 rfl⟩

end CelestialM

-- ===========================================================================
-- SceneM theorems (C4)
-- ===========================================================================

namespace SceneM

/-- Rotation about y by angle 0 is the identity. -/
theorem rotY_zero (v : Vec3) : rotY 0 v = v := by
  unfold rotY
  simp

/-- A chain of unrotated ancestors is a pure translation: it distributes
over adding a child offset. -/
theorem applyChain_add_of_unrotated (chain : List NodeTf)
    (hz : ∀ t ∈ chain, t.rotYAngle = 0) (u w : Vec3) :
    applyChain chain (u + w) = applyChain chain u + w := by
  induction chain with
  | nil => simp [applyChain]
  | cons t rest ih =>
    have ht := hz t (List.mem_cons_self t rest)
    have hrest : ∀ x ∈ rest, x.rotYAngle = 0 :=
      fun x hx => hz x (List.mem_cons_of_mem t hx)
    show applyTf t (applyChain rest (u + w)) = applyTf t (applyChain rest u) + w
    rw [ih hrest]
    unfold applyTf
    rw [ht, rotY_zero, rotY_zero, add_assoc]

/-- C4: a satellite body group hangs under its parent's body group through
an identity orbit group, so its world position compounds through the chain;
when the parent and all its ancestors are unrotated, the satellite's world
position is exactly the parent's world position plus the satellite's own
local orbit offset. -/
theorem c4_satellite_world_position (parentChain : List NodeTf)
    (parent sat : NodeTf) (hz : ∀ t ∈ parentChain, t.rotYAngle = 0)
    (hp : parent.rotYAngle = 0) :
    worldPos (parentChain ++ [parent, orbitGroupTf]) sat
      = worldPos parentChain parent + sat.position := by
  unfold worldPos
  have hpair : applyChain [parent, orbitGroupTf] sat.position
      = parent.position + sat.position := by
    show applyTf parent (applyTf orbitGroupTf sat.position)
      = parent.position + sat.position
    unfold applyTf orbitGroupTf
    rw [hp, rotY_zero]
    simp [rotY_zero]
  calc applyChain (parentChain ++ [parent, orbitGroupTf]) sat.position
      = applyChain parentChain (applyChain [parent, orbitGroupTf] sat.position) := by
        unfold applyChain
        rw [List.foldr_append]
    _ = applyChain parentChain (parent.position + sat.position) := by rw [hpair]
    _ = applyChain parentChain parent.position + sat.position :=
        applyChain_add_of_unrotated parentChain hz _ _

/-- C4 witness: a satellite at local orbit radius 2 and orbit angle 0 around
an unrotated parent at world position `(35, 0, 0)` has world position
`(37, 0, 0)`. -/
theorem c4_witness :
    worldPos ([] ++ [(⟨(35, 0, 0), 0⟩ : NodeTf), orbitGroupTf])
        ⟨(2, 0, 0), 0⟩
      = ((37 : ℝ), (0 : ℝ), (0 : ℝ)) := by
  have h := c4_satellite_world_position [] ⟨(35, 0, 0), 0⟩ ⟨(2, 0, 0), 0⟩
    (by simp) rfl
  rw [h]
  show ((35 : ℝ), (0 : ℝ), (0 : ℝ)) + ((2 : ℝ), (0 : ℝ), (0 : ℝ)) = _
  norm_num [Prod.ext_iff]

end SceneM

-- ===========================================================================
-- FactoryM theorems (C9)
-- ===========================================================================

namespace FactoryM

/-- One unfolding of `createSatellites` on an empty satellite list. -/
theorem createSats_nil (f : String → Bool) (pn : String) (st : FactoryState) :
    createSatellites f pn .nil st = st := rfl

/-- One unfolding of `createSatellites`: each entry is processed exactly by
`createBodyWithHierarchy` with this body as parent, then the rest. -/
theorem createSats_cons (f : String → Bool) (pn n : String) (c rest : SatList)
    (st : FactoryState) :
    createSatellites f pn (.cons n c rest) st =
      createSatellites f pn rest (createBodyWithHierarchy f n c (some pn) st) := rfl

theorem initFactoryState_good (f : String → Bool) : GoodState f initFactoryState := by
  refine ⟨List.nodup_nil, ?_, rfl, ?_, ?_⟩ <;> simp [initFactoryState]

theorem recordSuccess_good (f : String → Bool) (n : String) (p : Option String)
    (st : FactoryState) (h : GoodState f st) (hc : n ∉ st.classCache)
    (hf : f n = false) : GoodState f (recordSuccess n p st) := by
  have hnsucc : n ∉ st.successes := fun hx => hc ((h.2.1 n).mp hx)
  refine ⟨?_, ?_, ?_, ?_, ?_⟩
  · simpa [recordSuccess, List.nodup_append] using ⟨h.1, hnsucc⟩
  · intro x
    simp only [recordSuccess, List.mem_append, List.mem_cons, List.mem_singleton,
      List.not_mem_nil, or_false]
    constructor
    · intro hx
      rcases hx with hx | hx
      · exact Or.inr ((h.2.1 x).mp hx)
      · exact Or.inl hx
    · intro hx
      rcases hx with hx | hx
      · exact Or.inr hx
      · exact Or.inl ((h.2.1 x).mpr hx)
  · simp [recordSuccess, h.2.2.1]
  · intro x hx
    rcases List.mem_append.mp hx with hx | hx
    · exact h.2.2.2.1 x hx
    · simp only [List.mem_singleton] at hx
      rw [hx]; exact hf
  · intro e he
    rcases List.mem_append.mp he with he | he
    · exact h.2.2.2.2 e he
    · simp only [List.mem_singleton] at he
      simp [he]

theorem recordFailure_good (f : String → Bool) (n : String)
    (st : FactoryState) (h : GoodState f st) : GoodState f (recordFailure n st) :=
  ⟨h.1, h.2.1, h.2.2.1, h.2.2.2.1, h.2.2.2.2⟩

theorem createSats_good (f : String → Bool) (pn : String) (sats : SatList)
    (st : FactoryState) (h : GoodState f st) :
    GoodState f (createSatellites f pn sats st)
    ∧ (∀ x ∈ st.successes, x ∈ (createSatellites f pn sats st).successes) := by
  match sats with
  | .nil => exact ⟨h, fun x hx => hx⟩
  | .cons n csats rest =>
    rw [createSatellites]
    by_cases hc : n ∈ st.classCache
    · simp only [if_pos hc]
      exact createSats_good f pn rest st h
    · simp only [if_neg hc]
      by_cases hf : f n = true
      · simp only [if_pos hf]
        exact createSats_good f pn rest _ (recordFailure_good f n st h)
      · have hf' : f n = false := by
          cases hfn : f n
          · rfl
          · exact absurd hfn hf
        simp only [if_neg hf]
        have hg2 := recordSuccess_good f n (some pn) st h hc hf'
        have hin := createSats_good f n csats _ hg2
        have hrest := createSats_good f pn rest _ hin.1
        refine ⟨hrest.1, ?_⟩
        intro x hx
        refine hrest.2 x (hin.2 x ?_)
        simp only [recordSuccess, List.mem_append]
        exact Or.inl hx
termination_by sizeOf sats

theorem createBody_good (f : String → Bool) (n : String) (c : SatList)
    (p : Option String) (st : FactoryState) (h : GoodState f st) :
    GoodState f (createBodyWithHierarchy f n c p st)
    ∧ (∀ x ∈ st.successes, x ∈ (createBodyWithHierarchy f n c p st).successes)
    ∧ (f n = false → n ∈ (createBodyWithHierarchy f n c p st).successes) := by
  unfold createBodyWithHierarchy
  by_cases hc : n ∈ st.classCache
  · simp only [if_pos hc]
    exact ⟨h, fun x hx => hx, fun _ => (h.2.1 n).mpr hc⟩
  · simp only [if_neg hc]
    by_cases hf : f n = true
    · simp only [if_pos hf]
      refine ⟨recordFailure_good f n st h, fun x hx => hx, ?_⟩
      intro hfalse; rw [hfalse] at hf; cases hf
    · have hf' : f n = false := by
        cases hfn : f n
        · rfl
        · exact absurd hfn hf
      simp only [if_neg hf]
      have hg2 := recordSuccess_good f n p st h hc hf'
      have hin := createSats_good f n c _ hg2
      have hmemn : n ∈ (recordSuccess n p st).successes := by
        simp [recordSuccess]
      refine ⟨hin.1, ?_, fun _ => hin.2 n hmemn⟩
      intro x hx
      refine hin.2 x ?_
      simp only [recordSuccess, List.mem_append]
      exact Or.inl hx

theorem createSats_complete (f : String → Bool) (pn : String) (sats : SatList)
    (st : FactoryState) (h : GoodState f st) :
    ∀ m cm, (m, cm) ∈ topPairs sats → f m = false →
      m ∈ (createSatellites f pn sats st).successes := by
  match sats with
  | .nil =>
    intro m cm hm
    simp [topPairs] at hm
  | .cons n csats rest =>
    intro m cm hm hf
    rw [createSats_cons]
    have hbody := createBody_good f n csats (some pn) st h
    rcases (by simpa [topPairs] using hm :
        (m = n ∧ cm = csats) ∨ (m, cm) ∈ topPairs rest) with ⟨hmn, -⟩ | hmem
    · subst hmn
      exact (createSats_good f pn rest _ hbody.1).2 m (hbody.2.2 hf)
    · exact createSats_complete f pn rest _ hbody.1 m cm hmem hf
termination_by sizeOf sats

theorem createSats_attempts (f : String → Bool) (pn : String) (sats : SatList)
    (st : FactoryState) :
    ∀ x ∈ (createSatellites f pn sats st).attempts,
      x ∈ st.attempts ∨ x ∈ satAllNames sats := by
  match sats with
  | .nil => exact fun x hx => Or.inl hx
  | .cons n csats rest =>
    intro x hx
    rw [createSatellites] at hx
    rcases createSats_attempts f pn rest _ x hx with hx' | hx'
    · by_cases hc : n ∈ st.classCache
      · rw [if_pos hc] at hx'
        exact Or.inl hx'
      · rw [if_neg hc] at hx'
        by_cases hf : f n = true
        · rw [if_pos hf] at hx'
          rcases List.mem_append.mp hx' with hx'' | hx''
          · exact Or.inl hx''
          · simp only [List.mem_singleton] at hx''
            exact Or.inr (by simp [satAllNames, hx''])
        · rw [if_neg hf] at hx'
          rcases createSats_attempts f n csats _ x hx' with hx'' | hx''
          · rcases List.mem_append.mp hx'' with hx3 | hx3
            · exact Or.inl hx3
            · simp only [List.mem_singleton] at hx3
              exact Or.inr (by simp [satAllNames, hx3])
          · exact Or.inr (by simp [satAllNames, hx''])
    · exact Or.inr (by simp [satAllNames, hx'])
termination_by sizeOf sats

theorem createBody_attempts (f : String → Bool) (n : String) (c : SatList)
    (p : Option String) (st : FactoryState) :
    ∀ x ∈ (createBodyWithHierarchy f n c p st).attempts,
      x ∈ st.attempts ∨ x = n ∨ x ∈ satAllNames c := by
  intro x hx
  unfold createBodyWithHierarchy at hx
  by_cases hc : n ∈ st.classCache
  · rw [if_pos hc] at hx
    exact Or.inl hx
  · rw [if_neg hc] at hx
    by_cases hf : f n = true
    · rw [if_pos hf] at hx
      rcases List.mem_append.mp hx with hx' | hx'
      · exact Or.inl hx'
      · simp only [List.mem_singleton] at hx'
        exact Or.inr (Or.inl hx')
    · rw [if_neg hf] at hx
      rcases createSats_attempts f n c _ x hx with hx' | hx'
      · rcases List.mem_append.mp hx' with hx'' | hx''
        · exact Or.inl hx''
        · simp only [List.mem_singleton] at hx''
          exact Or.inr (Or.inl hx'')
      · exact Or.inr (Or.inr hx')

theorem createAllAux_good (f : String → Bool) (top : SatList)
    (st : FactoryState) (h : GoodState f st) :
    GoodState f (createAllAux f top st)
    ∧ (∀ x ∈ st.successes, x ∈ (createAllAux f top st).successes) := by
  induction top generalizing st with
  | nil => exact ⟨h, fun x hx => hx⟩
  | cons n c rest ihc ihrest =>
    rw [createAllAux]
    by_cases hs : n = "stars"
    · rw [if_pos hs]
      exact ihrest st h
    · rw [if_neg hs]
      have hbody := createBody_good f n c none st h
      have hr := ihrest _ hbody.1
      exact ⟨hr.1, fun x hx => hr.2 x (hbody.2.1 x hx)⟩

theorem createAllAux_complete (f : String → Bool) (top : SatList)
    (st : FactoryState) (h : GoodState f st) :
    ∀ n c, (n, c) ∈ topPairs top → n ≠ "stars" → f n = false →
      n ∈ (createAllAux f top st).successes := by
  induction top generalizing st with
  | nil =>
    intro n c hn
    simp [topPairs] at hn
  | cons m cm rest ihc ihrest =>
    intro n c hn hns hf
    rw [createAllAux]
    rcases (by simpa [topPairs] using hn :
        (n = m ∧ c = cm) ∨ (n, c) ∈ topPairs rest) with ⟨hnm, -⟩ | hmem
    · subst hnm
      rw [if_neg hns]
      have hbody := createBody_good f n cm none st h
      exact (createAllAux_good f rest _ hbody.1).2 n (hbody.2.2 hf)
    · by_cases hs : m = "stars"
      · rw [if_pos hs]
        exact ihrest st h n c hmem hns hf
      · rw [if_neg hs]
        exact ihrest _ (createBody_good f m cm none st h).1 n c hmem hns hf

theorem createAllAux_attempts (f : String → Bool) (top : SatList)
    (st : FactoryState) :
    ∀ x ∈ (createAllAux f top st).attempts,
      x ∈ st.attempts ∨ (x ∈ topNames top ∧ x ≠ "stars") ∨ x ∈ topSatNames top := by
  induction top generalizing st with
  | nil => exact fun x hx => Or.inl hx
  | cons n c rest ihc ihrest =>
    intro x hx
    rw [createAllAux] at hx
    by_cases hs : n = "stars"
    · rw [if_pos hs] at hx
      rcases ihrest st x hx with hx' | hx' | hx'
      · exact Or.inl hx'
      · exact Or.inr (Or.inl ⟨by simp [topNames, hx'.1], hx'.2⟩)
      · exact Or.inr (Or.inr (by simp [topSatNames, hx']))
    · rw [if_neg hs] at hx
      rcases ihrest _ x hx with hx' | hx' | hx'
      · rcases createBody_attempts f n c none st x hx' with hx'' | hx'' | hx''
        · exact Or.inl hx''
        · subst hx''
          exact Or.inr (Or.inl ⟨by simp [topNames], hs⟩)
        · exact Or.inr (Or.inr (by simp [topSatNames, hx'']))
      · exact Or.inr (Or.inl ⟨by simp [topNames, hx'.1], hx'.2⟩)
      · exact Or.inr (Or.inr (by simp [topSatNames, hx']))

theorem lookup_none_of_not_key {β : Type} (l : List (String × β)) (n : String)
    (h : n ∉ l.map Prod.fst) : l.lookup n = none := by
  induction l with
  | nil => rfl
  | cons e t ih =>
    simp only [List.map_cons, List.mem_cons] at h
    push_neg at h
    have hne : (n == e.1) = false := by
      simpa using h.1
    simp [List.lookup, hne, ih h.2]

theorem lookup_some_of_key (l : List (String × Option BodyM)) (n : String)
    (hk : n ∈ l.map Prod.fst) (hv : ∀ e ∈ l, (Prod.snd e).isSome) :
    ∃ b, l.lookup n = some (some b) := by
  induction l with
  | nil => simp at hk
  | cons e t ih =>
    by_cases hne : n = e.1
    · have hs := hv e (List.mem_cons_self e t)
      obtain ⟨b, hb⟩ := Option.isSome_iff_exists.mp hs
      refine ⟨b, ?_⟩
      simp [List.lookup, hne, hb]
    · have hne' : (n == e.1) = false := by simpa using hne
      simp only [List.map_cons, List.mem_cons] at hk
      rcases hk with hk | hk
      · exact absurd hk hne
      · obtain ⟨b, hb⟩ := ih hk (fun x hx => hv x (List.mem_cons_of_mem e hx))
        exact ⟨b, by simp [List.lookup, hne', hb]⟩

/-- C9 (amended): `createAll` skips the top-level `stars` entry (provided no
body lists `stars` as a satellite), never constructs the same name twice
successfully (the successfully constructed names are distinct), catches a
construction failure so that every non-failing top-level sibling still gets
a (non-null) entry in the result object, and every non-failing satellite of
a successfully constructed body is constructed; but a failing body leaves NO
entry in the result object — not a null entry. -/
theorem c9_createAll_amended (f : String → Bool) (top : SatList) :
    (createAll f top).successes.Nodup
    ∧ (∀ n, f n = true → (createAll f top).bodies.lookup n = none)
    ∧ ("stars" ∉ topSatNames top → "stars" ∉ (createAll f top).attempts)
    ∧ (∀ n c, (n, c) ∈ topPairs top → n ≠ "stars" → f n = false →
        ∃ b, (createAll f top).bodies.lookup n = some (some b))
    ∧ (∀ (n : String) (c : SatList) (p : Option String) (st : FactoryState),
        GoodState f st → n ∉ st.classCache → f n = false →
        ∀ m cm, (m, cm) ∈ topPairs c → f m = false →
          m ∈ (createBodyWithHierarchy f n c p st).successes) := by
  have hgood := createAllAux_good f top initFactoryState (initFactoryState_good f)
  simp only [createAll]
  refine ⟨hgood.1.1, ?_, ?_, ?_, ?_⟩
  · intro n hf
    apply lookup_none_of_not_key
    rw [hgood.1.2.2.1]
    intro hmem
    have := hgood.1.2.2.2.1 n hmem
    rw [hf] at this
    cases this
  · intro hno hmem
    rcases createAllAux_attempts f top initFactoryState "stars" hmem
      with h | h | h
    · simp [initFactoryState] at h
    · exact h.2 rfl
    · exact hno h
  · intro n c hnc hns hf
    have hsucc := createAllAux_complete f top initFactoryState
      (initFactoryState_good f) n c hnc hns hf
    apply lookup_some_of_key
    · rw [hgood.1.2.2.1]
      exact hsucc
    · exact hgood.1.2.2.2.2
  · intro n c p st hst hc hf m cm hm hfm
    unfold createBodyWithHierarchy
    rw [if_neg hc, if_neg (by simp [hf])]
    exact createSats_complete f n c _ (recordSuccess_good f n p st hst hc hf)
      m cm hm hfm

/-- C9 counterexample: with the concrete configuration `topEx` and a
constructor that throws only for mars, mars is attempted, construction of
its sibling's satellite moon still completes, but the result object has NO
binding for mars — in particular not the null entry the claim asserts. -/
theorem c9_counterexample :
    "mars" ∈ (createAll failEx topEx).attempts
    ∧ (createAll failEx topEx).bodies.lookup "mars" = none
    ∧ ¬ ((createAll failEx topEx).bodies.lookup "mars" = some none)
    ∧ (createAll failEx topEx).bodies.lookup "moon"
        = some (some ⟨"moon", some "earth"⟩) := by
  decide

/-- C9 witness: the amended theorem applied to the concrete configuration —
earth (a non-failing, non-stars top-level body) has a proper entry in the
result object even though its sibling mars failed. -/
theorem c9_witness :
    ∃ b, (createAll failEx topEx).bodies.lookup "earth" = some (some b) :=
  (c9_createAll_amended failEx topEx).2.2.2.1 "earth" (.cons "moon" .nil .nil)
    (by decide) (by decide) (by decide)


end FactoryM

end SolarSystem
